import Mathlib

/-!
Formal model of the tiddlydrive repository's session/token and sync-engine
core: the client sync engine (content-hash conflict preflight, coalescing
save queue, forced-save override), the auth orchestrator (token cache,
scope resolution, single-flight minting), and the backend edge functions
(crypto codec envelope, OAuth callback validation, token mint, logout).
Each definition is a shallow embedding of the corresponding source
function; comments cite the source file it is translated from.
-/

/-
Content hashing: `GoogleDriveService.generateContentHash` (GapiClient.ts,
lines 341-350) and the shared `generateContentHash` utility.
JS source:
  let hash = 0;
  for (i in content) hash = (hash << 5) - hash + content.charCodeAt(i); hash = hash & hash;
  return hash.toString(36);
JS bitwise operators coerce their operands to 32-bit signed integers
(ToInt32); `charCodeAt` yields UTF-16 code units, which agree with unicode
scalar values (`Char.toNat`) on the BMP characters the wiki files use.
-/

/-- ToInt32 coercion used by JS bitwise operators: wrap into the interval
from -2^31 (inclusive) to 2^31 (exclusive). -/
def toInt32 (n : Int) : Int := (n + 2 ^ 31) % 2 ^ 32 - 2 ^ 31

/-- One iteration of the content-hash loop:
`hash = (hash << 5) - hash + char; hash = hash & hash`. -/
def hashStep (h : Int) (c : Nat) : Int := toInt32 (toInt32 (h * 32) - h + c)

/-- Digit characters produced by JS `Number.prototype.toString(36)`:
0-9 then a-z. -/
def base36digit (n : Nat) : Char := if n < 10 then Char.ofNat (48 + n) else Char.ofNat (87 + n)

/-- Digit-extraction loop for base 36, least significant digit peeled
per step onto the accumulator; `fuel` bounds the recursion depth (the
caller passes n itself, which always suffices since 36 ^ n > n). -/
def natToBase36Go : Nat → Nat → List Char → List Char
  | 0, n, acc => base36digit n :: acc
  | fuel + 1, n, acc =>
    if n < 36 then base36digit n :: acc
    else natToBase36Go fuel (n / 36) (base36digit (n % 36) :: acc)

/-- Base-36 digits of a natural number, most significant digit first. -/
def natToBase36 (n : Nat) : List Char := natToBase36Go n n []

/-- JS `Number.prototype.toString(36)` on a 32-bit signed integer: a minus
sign followed by the base-36 digits of the absolute value when negative. -/
def int32ToString36 (i : Int) : String :=
  if i < 0 then String.mk ('-' :: natToBase36 i.natAbs) else String.mk (natToBase36 i.toNat)

/-- Embeds `generateContentHash` (GapiClient.ts lines 341-350). -/
def contentHash (content : String) : String :=
  int32ToString36 (content.toList.foldl (fun h ch => hashStep h ch.toNat) 0)

/-
Sync engine state: the mutable fields of the first (content-hash based)
`GoogleDriveService` in GapiClient.ts (lines 84-95).  The queue fields
`saving` / `pendingSave` / `pendingResolvers` are threaded explicitly
through the queue-run function below; the remote Drive file's content is
modelled as an explicit `String` passed alongside.
-/

/-- Per-file sync-engine state owned by `GoogleDriveService`
(GapiClient.ts lines 85-95): current file identity, tracked content hash
and the one-shot force-save flag. -/
structure DriveEngine where
  currentFileId : Option String
  currentFileName : String
  currentContentHash : Option String
  forceNextSave : Bool
deriving Repr, DecidableEq

/-- JS truthiness of `string | undefined` (undefined and the empty string
are falsy). -/
def truthyStr : Option String → Bool
  | none => false
  | some s => s ≠ ""

/-- JS `a || b` on `string | undefined` values. -/
def pickStr (a b : Option String) : Option String := if truthyStr a then a else b

/-- Embeds the state updates of `GoogleDriveService.loadFile`
(GapiClient.ts lines 123-143): store the file id, take the metadata name
(falling back to the previous name, initially "wiki.html"), download the
content and track its hash; the force flag starts unset. -/
def loadFile (fileId : String) (metaName : Option String) (remoteText : String) : DriveEngine :=
  { currentFileId := some fileId
    currentFileName := (pickStr metaName (some "wiki.html")).getD "wiki.html"
    currentContentHash := some (contentHash remoteText)
    forceNextSave := false }

/-- Embeds `GoogleDriveService.hasFileConflicts` (GapiClient.ts lines
284-333).  `fetchResult` is the outcome of the preflight network requests
(`downloadFileContent` / `getFileMetadata`): `some content` when they
succeed, `none` when either throws - the source catches the error and
falls through to `return false`.  On a hash mismatch the source surfaces
the conflict dialog (whose "Save Anyway" action is modelled by
`saveAnyway` below) and returns true. -/
def hasFileConflicts (e : DriveEngine) (fetchResult : Option String) : Bool :=
  match e.currentFileId, e.currentContentHash with
  | some _, some h =>
    match fetchResult with
    | some content => contentHash content != h
    | none => false
  | _, _ => false

/-- Embeds the "Save Anyway" action installed by `hasFileConflicts`
(GapiClient.ts lines 313-324): set the one-shot `forceNextSave` flag (the
action then re-triggers a save through `tiddlyWikiService.saveWiki()`,
which re-enters the queue modelled below). -/
def saveAnyway (e : DriveEngine) : DriveEngine := { e with forceNextSave := true }

/-- Outcome of one `uploadHtmlMedia` call: `ok b` models a returned
boolean, `threw` models a thrown upload error (caught by
`processSaveQueue`). -/
inductive UploadOutcome where
  | ok (b : Bool)
  | threw
deriving Repr, DecidableEq

/-- Result record of one `uploadHtmlMedia` call: outcome, updated engine
state, updated remote content, whether `uploadFileContent` was attempted
and whether the conflict preflight ran. -/
structure UploadStep where
  outcome : UploadOutcome
  engine : DriveEngine
  remote : String
  didUpload : Bool
  preflightRan : Bool
deriving Repr, DecidableEq

/-- Embeds `GoogleDriveService.uploadHtmlMedia` (GapiClient.ts lines
235-270): throw if no file is loaded; consume the one-shot force flag;
unless forced, run the conflict preflight (whose network fetch succeeds
iff `preflightOk`, returning the current remote content) and return false
without uploading on a detected conflict; otherwise PATCH the content
(`uploadSucceeds` models the network outcome), update the tracked hash on
success, re-throw on failure. -/
def uploadHtmlMedia (e : DriveEngine) (remote html : String)
    (preflightOk uploadSucceeds : Bool) : UploadStep :=
  match e.currentFileId with
  | none => ⟨.threw, e, remote, false, false⟩
  | some _ =>
    let forced := e.forceNextSave
    let e1 : DriveEngine := { e with forceNextSave := false }
    if forced then
      if uploadSucceeds then
        ⟨.ok true, { e1 with currentContentHash := some (contentHash html) }, html, true, false⟩
      else ⟨.threw, e1, remote, true, false⟩
    else
      if hasFileConflicts e1 (if preflightOk then some remote else none) then
        ⟨.ok false, e1, remote, false, true⟩
      else
        if uploadSucceeds then
          ⟨.ok true, { e1 with currentContentHash := some (contentHash html) }, html, true, true⟩
        else ⟨.threw, e1, remote, true, true⟩

/-
Coalescing save queue: `GoogleDriveService.save` enqueues the latest
payload into the single pending slot and appends a resolver, then kicks
`processSaveQueue` (GapiClient.ts lines 171-187); `processSaveQueue`
(lines 192-227) loops while a pending payload exists: snapshot and clear
the slot, splice out the waiting resolvers, debounce autosaves (800 ms
await, during which new save requests may arrive and refill the slot),
run the upload, and resolve the snapshotted waiters with its outcome
(false when the upload threw).
-/

/-- A queued save request: payload and autosave flag
(`pendingSave` slot contents, GapiClient.ts line 89). -/
structure SaveReq where
  html : String
  autosave : Bool
deriving Repr, DecidableEq

/-- Queue-visible state while `processSaveQueue` runs: engine state,
remote content, the single pending slot and the waiting resolver ids. -/
structure QueueState where
  engine : DriveEngine
  remote : String
  pending : Option SaveReq
  waiters : List Nat
deriving Repr, DecidableEq

/-- Effect of save requests arriving while the queue is suspended
(GapiClient.ts lines 182-185): each overwrites the pending slot
(last-write-wins) and appends its resolver to the waiter list. -/
def applyArrivals (q : QueueState) (arr : List (Nat × SaveReq)) : QueueState :=
  arr.foldl (fun st a => { st with pending := some a.2, waiters := st.waiters ++ [a.1] }) q

/-- Result of running the queue to completion: the resolver outcomes in
resolution order, the uploaded payloads in upload-attempt order, and the
final queue state. -/
structure QueueRun where
  resolutions : List (Nat × Bool)
  uploads : List String
  final : QueueState
deriving Repr, DecidableEq

/-- One iteration of the `processSaveQueue` while-loop (GapiClient.ts
lines 194-226) on a pending request `req`: snapshot and clear the pending
slot, splice out the waiting resolvers, apply the requests arriving during
the autosave debounce (non-autosave iterations have no debounce window),
run `uploadHtmlMedia` - a thrown upload error is caught and turned into
`false` - and resolve the snapshotted waiters with the outcome. -/
def queueIterate (q : QueueState) (req : SaveReq) (arrivals : List (Nat × SaveReq))
    (preflightOk uploadSucceeds : Bool) : QueueRun :=
  let resolvers := q.waiters
  let q1 : QueueState := { q with pending := none, waiters := [] }
  let q2 := if req.autosave then applyArrivals q1 arrivals else q1
  let step := uploadHtmlMedia q2.engine q2.remote req.html preflightOk uploadSucceeds
  let ok := match step.outcome with
    | .ok b => b
    | .threw => false
  ⟨resolvers.map (fun r => (r, ok)),
    if step.didUpload then [req.html] else [],
    { q2 with engine := step.engine, remote := step.remote }⟩

/-- Embeds the `processSaveQueue` loop (GapiClient.ts lines 192-227),
which runs while the pending slot is occupied.  `sched` supplies, per
iteration, the save requests that arrive during that iteration's autosave
debounce window (the loop's only arrival point modelled); once `sched` is
exhausted no further requests arrive, so at most one final iteration
remains (it empties the slot and the loop exits). -/
def runQueue : QueueState → List (List (Nat × SaveReq)) → Bool → Bool → QueueRun
  | q, [], preflightOk, uploadSucceeds =>
    match q.pending with
    | none => ⟨[], [], q⟩
    | some req => queueIterate q req [] preflightOk uploadSucceeds
  | q, arr :: rest, preflightOk, uploadSucceeds =>
    match q.pending with
    | none => ⟨[], [], q⟩
    | some req =>
      let one := queueIterate q req arr preflightOk uploadSucceeds
      let r := runQueue one.final rest preflightOk uploadSucceeds
      ⟨one.resolutions ++ r.resolutions, one.uploads ++ r.uploads, r.final⟩

/-
Scope resolution: `ScopeResolver` (app/src/lib/services/auth/ScopeResolver.ts).
-/

/-- Drive-wide scope constant (`ScopeResolver.DRIVE`). -/
def DRIVE : String := "https://www.googleapis.com/auth/drive"

/-- File-scoped scope constant (`ScopeResolver.DRIVE_FILE`). -/
def DRIVE_FILE : String := "https://www.googleapis.com/auth/drive.file"

/-- Whitespace test of the regex class in `granted.split(/\s+/)`; the
scope strings involved contain none of the rarer class members, so the
common four characters suffice. -/
def isWsChar (c : Char) : Bool := c = ' ' || c = '\t' || c = '\n' || c = '\r'

/-- Splits a character list on runs of whitespace, dropping empty pieces:
the effect of `granted.split(/\s+/).filter(Boolean)`
(ScopeResolver.ts line 33). -/
def splitWsGo : List Char → List Char → List (List Char)
  | [], acc => if acc.isEmpty then [] else [acc.reverse]
  | c :: rest, acc =>
    if isWsChar c then
      if acc.isEmpty then splitWsGo rest [] else acc.reverse :: splitWsGo rest []
    else splitWsGo rest (c :: acc)

/-- Embeds `ScopeResolver.isSatisfied` (ScopeResolver.ts lines 31-38):
falsy granted (undefined or empty) never satisfies; a drive-wide desire
needs the drive-wide scope in the granted list; a file-scoped desire is
satisfied by either the drive-wide or the file scope; any other desire by
exact membership. -/
def isSatisfied (granted : Option String) (desired : String) : Bool :=
  match granted with
  | none => false
  | some g =>
    if g = "" then false
    else
      let list := (splitWsGo g.toList []).map String.mk
      if desired = DRIVE then list.contains DRIVE
      else if desired = DRIVE_FILE then list.contains DRIVE || list.contains DRIVE_FILE
      else list.contains desired

/-
Token cache: `TokenCache` (src/unnamed/part_030, a LocalStorage-backed
cache keyed by scope).  Epoch-millisecond clock values are modelled as
integers and the stored entry as `Option StoredToken` (a missing or
unparseable LocalStorage entry is `none`).
-/

/-- The stored token record `StoredToken` (`accessToken`, `expireAt`
epoch-ms, `scope`). -/
structure StoredToken where
  accessToken : String
  expireAt : Int
  scope : String
deriving Repr, DecidableEq

/-- The early-expire skew `TOKEN_SKEW_SEC = 60` (part_030 line 4). -/
def TOKEN_SKEW_SEC : Int := 60

/-- Embeds `TokenCache.read` (part_030 lines 14-31): return the stored
record unless it is missing, has a different scope, or `now` has reached
its `expireAt`. -/
def tokenCacheRead (store : Option StoredToken) (scope : String) (now : Int) :
    Option StoredToken :=
  match store with
  | none => none
  | some parsed =>
    if parsed.scope ≠ scope ∨ now ≥ parsed.expireAt then none else some parsed

/-- Embeds `TokenCache.write` (part_030 lines 40-48): the stored
`expireAt` is the write time plus `max 0 ((expiresInSec - skew) * 1000)`
milliseconds, i.e. the skew margin is subtracted from the token's nominal
lifetime at write time. -/
def tokenCacheWrite (now : Int) (accessToken : String) (expiresInSec : Int) (scope : String) :
    StoredToken :=
  { accessToken := accessToken
    expireAt := now + max 0 ((expiresInSec - TOKEN_SKEW_SEC) * 1000)
    scope := scope }

/-- Embeds the cache-hit branch of `AuthService.getAccessToken`
(authService.ts lines 30-41): on a cache hit the cached token is returned
with zero network requests; otherwise the mint/consent path runs
(abstracted as `mintPath`, a token paired with the number of network
requests that path performs, which is at least one). -/
def getAccessTokenModel (store : Option StoredToken) (desiredScope : String) (now : Int)
    (mintPath : String × Nat) : String × Nat :=
  match tokenCacheRead store desiredScope now with
  | some t => (t.accessToken, 0)
  | none => mintPath

/-
Single-flight minting: `AuthService.mint` (authService.ts lines 79-91)
shares one in-flight promise: a caller that finds `mintInFlight` set
awaits that same promise; otherwise it creates the promise (issuing one
network request to /api/token) and stores it.  JS is single-threaded, so
the check-and-set prefix of each call runs atomically; promise identities
are modelled as numbers and the fetch count is tracked explicitly.
-/

/-- The orchestrator's minting state: the shared in-flight promise (if
any), a fresh-promise counter and the number of network requests issued
so far. -/
structure MintState where
  inFlight : Option Nat
  nextId : Nat
  requests : Nat
deriving Repr, DecidableEq

/-- The synchronous prefix of one `AuthService.mint()` call: reuse the
in-flight promise if present, otherwise create a new promise (one network
request) and store it.  Returns the promise the caller awaits. -/
def mintOnce (s : MintState) : MintState × Nat :=
  match s.inFlight with
  | some p => (s, p)
  | none =>
    ({ inFlight := some s.nextId, nextId := s.nextId + 1, requests := s.requests + 1 }, s.nextId)

/-- N concurrent `mint()` callers: each runs its synchronous prefix before
any mint completes (the `finally` reset has not run yet). Returns the
final state and the promise each caller awaits, in call order. -/
def mintConcurrent : Nat → MintState → MintState × List Nat
  | 0, s => (s, [])
  | n + 1, s =>
    let r1 := mintOnce s
    let r2 := mintConcurrent n r1.1
    (r2.1, r1.2 :: r2.2)

/-- The `finally` block of `AuthService.mint`: the settled promise is
cleared so a later call can mint again. -/
def mintComplete (s : MintState) : MintState := { s with inFlight := none }

/-
Backend edge functions.  Set-Cookie headers are modelled structurally:
each handler builds cookie strings of the shape
"name=value; Path=p; HttpOnly[; Secure]; SameSite=s; Max-Age=n"; the
record below carries those attributes field by field.
-/

/-- A Set-Cookie instruction with the attributes the handlers emit. -/
structure SetCookie where
  name : String
  value : String
  path : String
  httpOnly : Bool
  secure : Bool
  sameSite : String
  maxAge : Int
deriving Repr, DecidableEq

/-- The `clearRt` cookie of logout.js line 9:
`td2_rt=; Path=/api/; Secure; HttpOnly; SameSite=Strict; Max-Age=0`. -/
def logoutClearRt : SetCookie :=
  { name := "td2_rt", value := "", path := "/api/", httpOnly := true, secure := true
    sameSite := "Strict", maxAge := 0 }

/-- The `clearHelper` cookie of logout.js line 10:
`td2_oauth=; Path=/api/; Secure; HttpOnly; SameSite=Strict; Max-Age=0`. -/
def logoutClearHelper : SetCookie :=
  { name := "td2_oauth", value := "", path := "/api/", httpOnly := true, secure := true
    sameSite := "Strict", maxAge := 0 }

/-- Response of the Logout handler. -/
structure LogoutResponse where
  statusCode : Nat
  setCookies : List SetCookie
deriving Repr, DecidableEq

/-- Embeds the logout handler (logout.js lines 8-16): it ignores its
request entirely and returns 204 with the two clear cookies. -/
def logoutHandler : LogoutResponse :=
  { statusCode := 204, setCookies := [logoutClearRt, logoutClearHelper] }

/-- The temporary-session cookie set by the start handler (oauth-start.js
line 68): `td2_oauth=<payload>; Path=/; HttpOnly[; Secure]; SameSite=Lax;
Max-Age=600` - set on `Path=/` so it reaches the callback on either
route. -/
def startTempCookie (payload : String) (isHttps : Bool) : SetCookie :=
  { name := "td2_oauth", value := payload, path := "/", httpOnly := true, secure := isHttps
    sameSite := "Lax", maxAge := 600 }

/-
Authorization-Callback handler (oauth-callback.ts lines 55-150).
Query parameters default to "" when absent (`|| ''`), matching the
source; the parsed temporary cookie is the result of `parseTempCookie`
(oauth-shared.ts), `none` when the payload was empty or unparseable JSON.
The code exchange at Google's token endpoint is abstracted by an
`ExchangeResult` parameter; the refresh-token encryption by an
`encRefresh` string parameter (the envelope the crypto codec produced).
-/

/-- The parsed temporary cookie payload `OAuthTempCookiePayload`
(oauth-shared.ts lines 8-21): descriptive keys plus legacy short keys. -/
structure TempPayload where
  verifier : Option String
  state : Option String
  returnPath : Option String
  v : Option String
  s : Option String
  r : Option String
deriving Repr, DecidableEq

/-- Outcome of `exchangeCodeForTokens`: a token response carrying an
optional `refresh_token`, or a thrown error (non-ok HTTP status). -/
inductive ExchangeResult where
  | ok (refreshToken : Option String)
  | threw
deriving Repr, DecidableEq

/-- Response of the callback handler: HTTP status, whether the token
exchange was performed, and the cookies set. -/
structure CallbackResult where
  status : Nat
  exchanged : Bool
  setCookies : List SetCookie
deriving Repr, DecidableEq

/-- The refresh-session cookie set on success (oauth-callback.ts line
126): `td2_rt=<enc>; Path=/api/; HttpOnly[; Secure]; SameSite=Lax;
Max-Age=2592000`. -/
def callbackRtCookie (enc : String) (isHttps : Bool) : SetCookie :=
  { name := "td2_rt", value := enc, path := "/api/", httpOnly := true, secure := isHttps
    sameSite := "Lax", maxAge := 60 * 60 * 24 * 30 }

/-- The temporary-cookie clear emitted on success (oauth-callback.ts line
128): `td2_oauth=; Path=/; HttpOnly[; Secure]; SameSite=Lax; Max-Age=0` -
`Path=/` to match where it was set. -/
def callbackClearOauthCookie (isHttps : Bool) : SetCookie :=
  { name := "td2_oauth", value := "", path := "/", httpOnly := true, secure := isHttps
    sameSite := "Lax", maxAge := 0 }

/-- The PKCE verifier read from the parsed cookie: descriptive key with
legacy `v` fallback (oauth-callback.ts line 80). -/
def cookieVerifier (parsed : Option TempPayload) : Option String :=
  match parsed with
  | some p => pickStr p.verifier p.v
  | none => none

/-- The stored CSRF state read from the parsed cookie: descriptive key
with legacy `s` fallback (oauth-callback.ts line 81). -/
def cookieState (parsed : Option TempPayload) : Option String :=
  match parsed with
  | some p => pickStr p.state p.s
  | none => none

/-- Embeds the callback handler (oauth-callback.ts lines 55-150): 400 on
missing code; 500 on missing client id / redirect URI; 400 on missing
cookie, missing (falsy) PKCE verifier, missing state parameter, or state
mismatch against the stored state (a strict `!==` against an absent
stored state is a mismatch); only then is the code exchange performed - a
thrown exchange is a 500, an exchange response without a refresh token a
400, and success a 200 that sets the refresh cookie and clears the
temporary cookie. -/
def oauthCallbackHandler (clientId redirectUri : String) (code state : String)
    (cookiePayload : String) (parsed : Option TempPayload)
    (exchange : ExchangeResult) (encRefresh : String) (isHttps : Bool) : CallbackResult :=
  if code = "" then ⟨400, false, []⟩
  else if clientId = "" ∨ redirectUri = "" then ⟨500, false, []⟩
  else
    if cookiePayload = "" then ⟨400, false, []⟩
    else if ¬ truthyStr (cookieVerifier parsed) then ⟨400, false, []⟩
    else if state = "" then ⟨400, false, []⟩
    else if (match cookieState parsed with
      | some ss => state != ss
      | none => true) then ⟨400, false, []⟩
    else match exchange with
      | .threw => ⟨500, true, []⟩
      | .ok none => ⟨400, true, []⟩
      | .ok (some _) =>
        ⟨200, true, [callbackRtCookie encRefresh isHttps, callbackClearOauthCookie isHttps]⟩

/-
Token-Mint handler (src/unnamed/part_008 lines 131-177) and its error
mapping `mapRefreshError` (lines 93-121).
-/

/-- An error thrown while minting: `OAuthRefreshError` carries the
provider's `error` code (plus description / raw body); `other` models any
non-`OAuthRefreshError` exception. -/
inductive RefreshErr where
  | oauth (error : String) (description rawBody : Option String)
  | other
deriving Repr, DecidableEq

/-- A successful provider token response subset. -/
structure TokenData where
  accessToken : String
  expiresIn : Int
  scope : Option String
deriving Repr, DecidableEq

/-- Embeds `mapRefreshError` (part_008 lines 93-121): `invalid_grant` to
401, `disallowed_useragent` to 400, the client-misconfiguration codes to
500, the policy-restriction codes to 405, anything else (including
non-`OAuthRefreshError` exceptions) to 500. -/
def mapRefreshError (e : RefreshErr) : Nat :=
  match e with
  | .oauth msg _ _ =>
    if msg = "invalid_grant" then 401
    else if msg = "disallowed_useragent" then 400
    else if msg = "invalid_client" ∨ msg = "deleted_client" ∨ msg = "invalid_request"
      ∨ msg = "redirect_uri_mismatch" then 500
    else if msg = "admin_policy_enforced" ∨ msg = "org_internal" then 405
    else 500
  | .other => 500

/-- Embeds the token handler (part_008 lines 131-177).  Headers default
to "" when absent; `rtCookie` is the value the `td2_rt=` regex extracted
(`none` when the cookie is absent); `decryptResult` is the outcome of
`decrypt(enc, aad)` on that value (`none` when it threw, in which case the
handler returns 401); `refresh` is the outcome of `mintAccessToken`.
Returns the HTTP status code. -/
def tokenHandler (clientId : String) (host origin referer xfProto : String)
    (rtCookie : Option String) (decryptResult : Option String)
    (refresh : Except RefreshErr TokenData) : Nat :=
  if clientId = "" then 500
  else
    let proto := if xfProto ≠ "" then xfProto
      else if "localhost".isPrefixOf host then "http" else "https"
    let expected := if host = "" then "" else proto ++ "://" ++ host
    if expected ≠ "" ∧ origin ≠ "" ∧ origin ≠ expected then 403
    else if expected ≠ "" ∧ referer ≠ "" ∧ ¬ expected.isPrefixOf referer then 403
    else match rtCookie with
      | none => 401
      | some _ =>
        match decryptResult with
        | none => 401
        | some _ =>
          match refresh with
          | .ok _ => 200
          | .error e => mapRefreshError e

/-
Crypto codec: crypto-util.js.  The repository code is the envelope
framing: `encrypt` produces "v1.iv.ciphertext.tag" as four base64url
segments joined by '.', `decrypt` splits, checks the segment count and
the version byte, and hands the decoded parts to node's AES-256-GCM.
The external primitives - node's base64 codec and AES-GCM cipher - are
parameters of the model, constrained in the theorems by their documented
contracts (base64url round-trips and never emits '.'; GCM decryption
succeeds exactly on the authentic tag of the associated data and
ciphertext).  Byte strings are `List Nat`.
-/

/-- JS `Array.prototype.join('.')` on character-list segments. -/
def joinDot : List (List Char) → List Char
  | [] => []
  | [x] => x
  | x :: xs => x ++ '.' :: joinDot xs

/-- JS `String.prototype.split('.')`: splits at every '.' and always
returns one more segment than there are dots. -/
def splitOnDot : List Char → List (List Char)
  | [] => [[]]
  | c :: rest =>
    if c = '.' then [] :: splitOnDot rest
    else
      match splitOnDot rest with
      | s :: t => (c :: s) :: t
      | [] => [[c]]

/-- Embeds `encrypt` (crypto-util.js lines 49-59): AES-GCM-encrypt the
plaintext (via the `encCore` parameter, which returns ciphertext and tag
for a key, a random IV and optional AAD) and serialize
`[b64(v1), b64(iv), b64(ct), b64(tag)]` joined by '.'. -/
def encryptEnv (b64e : List Nat → List Char)
    (encCore : List Nat → List Nat → List Nat → List Nat → List Nat × List Nat)
    (key iv aad pt : List Nat) : List Char :=
  joinDot [b64e [1], b64e iv, b64e (encCore key iv aad pt).1, b64e (encCore key iv aad pt).2]

/-- Embeds `decrypt` (crypto-util.js lines 67-83): split on '.', fail
unless there are exactly 4 segments ("Malformed encrypted token"), decode
the version segment and fail unless it is the single byte 1 ("Unsupported
token version"), then AES-GCM-decrypt with the decoded IV, ciphertext and
tag (via the `decCore` parameter, `none` modelling the tag-verification
throw). -/
def decryptEnv (b64d : List Char → List Nat)
    (decCore : List Nat → List Nat → List Nat → List Nat → List Nat → Option (List Nat))
    (key : List Nat) (tokenEnc : List Char) (aad : List Nat) : Option (List Nat) :=
  match splitOnDot tokenEnc with
  | [vB, ivB, ctB, tagB] =>
    if b64d vB = [1] then decCore key (b64d ivB) aad (b64d ctB) (b64d tagB) else none
  | _ => none

theorem splitOnDot_ne_nil (cs : List Char) : splitOnDot cs ≠ [] := by
  induction cs with
  | nil => simp [splitOnDot]
  | cons c rest ih =>
    simp only [splitOnDot]
    split
    · simp
    · split
      · simp
      · simp

theorem splitOnDot_noDot (x : List Char) (hx : '.' ∉ x) : splitOnDot x = [x] := by
  induction x with
  | nil => rfl
  | cons c rest ih =>
    have hc : ¬ c = '.' := fun h => hx (by simp [h])
    have hr : '.' ∉ rest := fun h => hx (List.mem_cons_of_mem _ h)
    simp only [splitOnDot]
    rw [if_neg hc, ih hr]

theorem splitOnDot_append (x z : List Char) (hx : '.' ∉ x) :
    splitOnDot (x ++ '.' :: z) = x :: splitOnDot z := by
  induction x with
  | nil => simp [splitOnDot]
  | cons c rest ih =>
    have hc : ¬ c = '.' := fun h => hx (by simp [h])
    have hr : '.' ∉ rest := fun h => hx (List.mem_cons_of_mem _ h)
    simp only [List.cons_append, splitOnDot, List.append_eq]
    rw [if_neg hc, ih hr]

theorem splitOnDot_joinDot (ss : List (List Char)) (hne : ss ≠ [])
    (hdot : ∀ s ∈ ss, '.' ∉ s) : splitOnDot (joinDot ss) = ss := by
  induction ss with
  | nil => exact absurd rfl hne
  | cons x xs ih =>
    cases xs with
    | nil => exact splitOnDot_noDot x (hdot x (by simp))
    | cons y t =>
      have hx : '.' ∉ x := hdot x (by simp)
      show splitOnDot (x ++ '.' :: joinDot (y :: t)) = x :: y :: t
      rw [splitOnDot_append _ _ hx, ih (by simp) (fun s hs => hdot s (by simp [hs]))]

/-
Concrete instantiation of the external crypto primitives, used to witness
the codec theorem: a unary, '.'-free, injective byte-to-character code,
and a structurally authentic cipher whose tag is a length-prefixed copy
of the associated data and ciphertext (so tag equality pins both down).
-/

/-- Toy base64url encoder: each byte n becomes n copies of 'a' followed
by a 'b' terminator. -/
def toyB64e (bs : List Nat) : List Char :=
  bs.flatMap (fun n => List.replicate n 'a' ++ ['b'])

/-- Decoder loop for `toyB64e`: count the characters before each 'b'. -/
def toyB64dGo : Nat → List Char → List Nat
  | _, [] => []
  | k, c :: rest => if c = 'b' then k :: toyB64dGo 0 rest else toyB64dGo (k + 1) rest

/-- Toy base64url decoder, inverse of `toyB64e`. -/
def toyB64d (cs : List Char) : List Nat := toyB64dGo 0 cs

theorem toyB64dGo_replicate (n k : Nat) (rest : List Char) :
    toyB64dGo k (List.replicate n 'a' ++ 'b' :: rest) = (k + n) :: toyB64dGo 0 rest := by
  induction n generalizing k with
  | zero => simp [toyB64dGo]
  | succ m ih =>
    have h1 : k + 1 + m = k + (m + 1) := by omega
    simp only [List.replicate_succ, List.cons_append, List.append_eq, toyB64dGo]
    rw [if_neg (by decide), ih (k + 1), h1]

theorem toyB64_rt (bs : List Nat) : toyB64d (toyB64e bs) = bs := by
  induction bs with
  | nil => rfl
  | cons n rest ih =>
    simp only [toyB64e, List.flatMap_cons, List.append_assoc, List.singleton_append]
    show toyB64dGo 0 (List.replicate n 'a' ++ 'b' :: rest.flatMap _) = n :: rest
    rw [toyB64dGo_replicate, Nat.zero_add]
    exact congrArg (n :: ·) ih

theorem toyB64_dotFree (bs : List Nat) : '.' ∉ toyB64e bs := by
  intro h
  simp only [toyB64e, List.mem_flatMap, List.mem_append, List.mem_replicate,
    List.mem_singleton] at h
  rcases h with ⟨n, _, h | h⟩
  · exact absurd h.2 (by decide)
  · exact absurd h (by decide)

/-- Toy authentication tag: the associated data (length-prefixed) plus
the ciphertext. -/
def toyTag (aad ct : List Nat) : List Nat := aad.length :: (aad ++ ct)

/-- The tag function of the toy cipher (key and IV unused). -/
def toyTagOf (key iv aad ct : List Nat) : List Nat := toyTag aad ct

/-- Toy AEAD encryption core: identity "cipher" with the toy tag. -/
def toyEncCore (key iv aad pt : List Nat) : List Nat × List Nat := (pt, toyTag aad pt)

/-- Toy AEAD decryption core: succeeds exactly on the authentic tag. -/
def toyDecCore (key iv aad ct tag : List Nat) : Option (List Nat) :=
  if tag = toyTag aad ct then some ct else none

theorem toyCoreRT (k iv aad pt : List Nat) :
    toyDecCore k iv aad (toyEncCore k iv aad pt).1 (toyEncCore k iv aad pt).2 = some pt := by
  simp [toyDecCore, toyEncCore]

theorem toyCoreAuth (k iv aad ct tg : List Nat) :
    (toyDecCore k iv aad ct tg).isSome → tg = toyTagOf k iv aad ct := by
  simp only [toyDecCore, toyTagOf]
  split
  · exact fun _ => by assumption
  · simp

theorem toyEncTag (k iv aad pt : List Nat) :
    (toyEncCore k iv aad pt).2 = toyTagOf k iv aad (toyEncCore k iv aad pt).1 := rfl

theorem toyTagInj (k iv aad ct aad2 ct2 : List Nat)
    (h : toyTagOf k iv aad ct = toyTagOf k iv aad2 ct2) : aad = aad2 ∧ ct = ct2 := by
  simp only [toyTagOf, toyTag, List.cons.injEq] at h
  exact List.append_inj h.2 h.1

/-- Claim C3: for every plaintext and associated data,
`decrypt(encrypt(P, A), A) = P`; and `decrypt` fails on mismatched
associated data, corrupted ciphertext, an altered authentication tag, a
version byte other than 1, or a dot-separated segment count other than 4.
Stated over the envelope codec of crypto-util.js with the external
base64url and AES-256-GCM primitives as parameters constrained by their
documented contracts. -/
theorem crypto_roundtrip_fail_closed
    (b64e : List Nat → List Char) (b64d : List Char → List Nat)
    (encCore : List Nat → List Nat → List Nat → List Nat → List Nat × List Nat)
    (decCore : List Nat → List Nat → List Nat → List Nat → List Nat → Option (List Nat))
    (tagOf : List Nat → List Nat → List Nat → List Nat → List Nat)
    (hB64 : ∀ bs, b64d (b64e bs) = bs)
    (hDotFree : ∀ bs, '.' ∉ b64e bs)
    (hCoreRT : ∀ k iv aad pt,
      decCore k iv aad (encCore k iv aad pt).1 (encCore k iv aad pt).2 = some pt)
    (hCoreAuth : ∀ k iv aad ct tg, (decCore k iv aad ct tg).isSome → tg = tagOf k iv aad ct)
    (hEncTag : ∀ k iv aad pt,
      (encCore k iv aad pt).2 = tagOf k iv aad (encCore k iv aad pt).1)
    (hTagInj : ∀ k iv aad ct aad2 ct2,
      tagOf k iv aad ct = tagOf k iv aad2 ct2 → aad = aad2 ∧ ct = ct2)
    (key iv aad pt : List Nat) :
    decryptEnv b64d decCore key (encryptEnv b64e encCore key iv aad pt) aad = some pt
    ∧ (∀ aad2, aad2 ≠ aad →
        decryptEnv b64d decCore key (encryptEnv b64e encCore key iv aad pt) aad2 = none)
    ∧ (∀ ct2, ct2 ≠ (encCore key iv aad pt).1 →
        decryptEnv b64d decCore key
          (joinDot [b64e [1], b64e iv, b64e ct2, b64e (encCore key iv aad pt).2]) aad = none)
    ∧ (∀ tag2, tag2 ≠ (encCore key iv aad pt).2 →
        decryptEnv b64d decCore key
          (joinDot [b64e [1], b64e iv, b64e (encCore key iv aad pt).1, b64e tag2]) aad = none)
    ∧ (∀ vb, vb ≠ [1] →
        decryptEnv b64d decCore key
          (joinDot [b64e vb, b64e iv, b64e (encCore key iv aad pt).1,
            b64e (encCore key iv aad pt).2]) aad = none)
    ∧ (∀ s, (splitOnDot s).length ≠ 4 → decryptEnv b64d decCore key s aad = none) := by
  have hsplit : ∀ a b c d : List Nat,
      splitOnDot (joinDot [b64e a, b64e b, b64e c, b64e d]) = [b64e a, b64e b, b64e c, b64e d] := by
    intro a b c d
    refine splitOnDot_joinDot _ (by simp) ?_
    intro s hs
    simp only [List.mem_cons, List.not_mem_nil, or_false] at hs
    rcases hs with rfl | rfl | rfl | rfl
    · exact hDotFree a
    · exact hDotFree b
    · exact hDotFree c
    · exact hDotFree d
  refine ⟨?_, ?_, ?_, ?_, ?_, ?_⟩
  · simp only [encryptEnv, decryptEnv, hsplit, hB64]
    rw [if_pos trivial]
    exact hCoreRT key iv aad pt
  · intro aad2 hne
    simp only [encryptEnv, decryptEnv, hsplit, hB64]
    rw [if_pos trivial]
    by_contra hcon
    have hs := Option.ne_none_iff_isSome.mp hcon
    have h1 := hCoreAuth key iv aad2 _ _ hs
    have h2 := hEncTag key iv aad pt
    exact hne ((hTagInj key iv aad _ aad2 _ (h2.symm.trans h1)).1.symm)
  · intro ct2 hne
    simp only [decryptEnv, hsplit, hB64]
    rw [if_pos trivial]
    by_contra hcon
    have hs := Option.ne_none_iff_isSome.mp hcon
    have h1 := hCoreAuth key iv aad ct2 _ hs
    have h2 := hEncTag key iv aad pt
    exact hne (hTagInj key iv aad _ aad ct2 (h2.symm.trans h1)).2.symm
  · intro tag2 hne
    simp only [decryptEnv, hsplit, hB64]
    rw [if_pos trivial]
    by_contra hcon
    have hs := Option.ne_none_iff_isSome.mp hcon
    have h1 := hCoreAuth key iv aad _ tag2 hs
    exact hne (h1.trans (hEncTag key iv aad pt).symm)
  · intro vb hne
    simp only [decryptEnv, hsplit, hB64]
    rw [if_neg hne]
  · intro s hlen
    simp only [decryptEnv]
    split
    · next vB ivB ctB tagB heq =>
      rw [heq] at hlen
      simp at hlen
    · rfl

/-- Witness for the crypto codec theorem: the toy primitives satisfy all
of its contracts, and the round-trip holds at concrete bytes. -/
theorem crypto_roundtrip_fail_closed_witness :
    decryptEnv toyB64d toyDecCore [0]
      (encryptEnv toyB64e toyEncCore [0] [1, 2] [3] [4, 5]) [3] = some [4, 5] :=
  (crypto_roundtrip_fail_closed toyB64e toyB64d toyEncCore toyDecCore toyTagOf
    toyB64_rt toyB64_dotFree toyCoreRT toyCoreAuth toyEncTag toyTagInj [0] [1, 2] [3] [4, 5]).1

/-- Claim C4: the Authorization-Callback handler returns 400 and performs
no token exchange whenever the code query parameter is missing, the
temporary-session cookie is missing, the PKCE verifier is missing from
the cookie, the state query parameter is missing, or the state parameter
differs from the stored state - the last regardless of the exchange
outcome, i.e. of whether the code is otherwise valid. -/
theorem callback_validation (clientId redirectUri code state cookiePayload : String)
    (parsed : Option TempPayload) (exchange : ExchangeResult) (encRefresh : String)
    (isHttps : Bool) (hClient : clientId ≠ "") (hRedirect : redirectUri ≠ "") :
    (code = "" →
      oauthCallbackHandler clientId redirectUri code state cookiePayload parsed exchange
        encRefresh isHttps = ⟨400, false, []⟩)
    ∧ (cookiePayload = "" →
      oauthCallbackHandler clientId redirectUri code state cookiePayload parsed exchange
        encRefresh isHttps = ⟨400, false, []⟩)
    ∧ (truthyStr (cookieVerifier parsed) = false →
      oauthCallbackHandler clientId redirectUri code state cookiePayload parsed exchange
        encRefresh isHttps = ⟨400, false, []⟩)
    ∧ (state = "" →
      oauthCallbackHandler clientId redirectUri code state cookiePayload parsed exchange
        encRefresh isHttps = ⟨400, false, []⟩)
    ∧ (cookieState parsed ≠ some state →
      oauthCallbackHandler clientId redirectUri code state cookiePayload parsed exchange
        encRefresh isHttps = ⟨400, false, []⟩) := by
  refine ⟨?_, ?_, ?_, ?_, ?_⟩
  · intro h1
    simp [oauthCallbackHandler, h1]
  · intro h3
    by_cases h1 : code = "" <;>
      simp [oauthCallbackHandler, h1, h3, hClient, hRedirect]
  · intro h4
    by_cases h1 : code = ""
    · simp [oauthCallbackHandler, h1]
    · by_cases h3 : cookiePayload = "" <;>
        simp [oauthCallbackHandler, h1, h3, h4, hClient, hRedirect]
  · intro h5
    by_cases h1 : code = ""
    · simp [oauthCallbackHandler, h1]
    · by_cases h3 : cookiePayload = ""
      · simp [oauthCallbackHandler, h1, h3, hClient, hRedirect]
      · by_cases h4 : truthyStr (cookieVerifier parsed) = true <;>
          simp [oauthCallbackHandler, h1, h3, h4, h5, hClient, hRedirect]
  · intro h
    by_cases h1 : code = ""
    · simp [oauthCallbackHandler, h1]
    · by_cases h3 : cookiePayload = ""
      · simp [oauthCallbackHandler, h1, h3, hClient, hRedirect]
      · by_cases h4 : truthyStr (cookieVerifier parsed) = true
        · by_cases h5 : state = ""
          · simp [oauthCallbackHandler, h1, h3, h4, h5, hClient, hRedirect]
          · have h6 : (match cookieState parsed with
                | some ss => state != ss
                | none => true) = true := by
              rcases hcs : cookieState parsed with _ | ss
              · rfl
              · simp only [bne_iff_ne, ne_eq]
                intro heq
                exact h (by rw [hcs, heq])
            simp [oauthCallbackHandler, h1, h3, h4, h5, h6, hClient, hRedirect]
        · simp [oauthCallbackHandler, h1, h3, h4, hClient, hRedirect]

/-- Witness for the callback-validation theorem: a request with a missing
code against a configured handler is a 400 with no exchange. -/
theorem callback_validation_witness :
    oauthCallbackHandler "c" "r" "" "st" "" none .threw "" false = ⟨400, false, []⟩ :=
  (callback_validation "c" "r" "" "st" "" none .threw "" false
    (by decide) (by decide)).1 rfl

/-- Claim C5: the Token-Mint handler returns 401 when the refresh-session
cookie is absent or fails to decrypt, and maps provider refresh errors to
statuses: invalid_grant to 401, the policy-restriction codes
admin_policy_enforced and org_internal to 405, and the
client-misconfiguration codes to 500.  Origin and Referer headers are
absent (the tolerant same-origin check passes). -/
theorem token_mint_status (clientId host xf : String) (dec : Option String)
    (refresh : Except RefreshErr TokenData) (hClient : clientId ≠ "") :
    tokenHandler clientId host "" "" xf none dec refresh = 401
    ∧ (∀ v, tokenHandler clientId host "" "" xf (some v) none refresh = 401)
    ∧ (∀ v s d r, tokenHandler clientId host "" "" xf (some v) (some s)
        (.error (.oauth "invalid_grant" d r)) = 401)
    ∧ (∀ v s d r, tokenHandler clientId host "" "" xf (some v) (some s)
        (.error (.oauth "admin_policy_enforced" d r)) = 405)
    ∧ (∀ v s d r, tokenHandler clientId host "" "" xf (some v) (some s)
        (.error (.oauth "org_internal" d r)) = 405)
    ∧ (∀ v s d r, tokenHandler clientId host "" "" xf (some v) (some s)
        (.error (.oauth "invalid_client" d r)) = 500)
    ∧ (∀ v s d r, tokenHandler clientId host "" "" xf (some v) (some s)
        (.error (.oauth "deleted_client" d r)) = 500)
    ∧ (∀ v s d r, tokenHandler clientId host "" "" xf (some v) (some s)
        (.error (.oauth "invalid_request" d r)) = 500)
    ∧ (∀ v s d r, tokenHandler clientId host "" "" xf (some v) (some s)
        (.error (.oauth "redirect_uri_mismatch" d r)) = 500) := by
  refine ⟨?_, ?_, ?_, ?_, ?_, ?_, ?_, ?_, ?_⟩ <;>
    simp [tokenHandler, mapRefreshError, hClient]

/-- Witness for the token-mint status theorem: with no cookie the handler
returns 401. -/
theorem token_mint_status_witness :
    tokenHandler "c" "h" "" "" "" none none (.ok ⟨"t", 0, none⟩) = 401 :=
  (token_mint_status "c" "h" "" none (.ok ⟨"t", 0, none⟩) (by decide)).1

theorem mintConcurrent_inFlight (n : Nat) (s : MintState) (p : Nat)
    (hs : s.inFlight = some p) : mintConcurrent n s = (s, List.replicate n p) := by
  induction n with
  | zero => simp [mintConcurrent]
  | succ m ih =>
    simp only [mintConcurrent, mintOnce, hs, ih, List.replicate_succ]

/-- Claim C6: N concurrent `getAccessToken()` callers with no valid
cached token (so each reaches `mint()`) issue exactly one network request
to the token endpoint, all awaiting the same promise; and a `mint()` call
that finds a promise in flight creates no new request at all. -/
theorem single_flight_mint (n : Nat) (hn : 1 ≤ n) :
    (mintConcurrent n ⟨none, 0, 0⟩).1.requests = 1
    ∧ (mintConcurrent n ⟨none, 0, 0⟩).2 = List.replicate n 0
    ∧ (∀ s : MintState, s.inFlight.isSome → (mintOnce s).1 = s) := by
  obtain ⟨m, rfl⟩ : ∃ m, n = m + 1 := ⟨n - 1, by omega⟩
  have h2 := mintConcurrent_inFlight m ⟨some 0, 1, 1⟩ 0 rfl
  refine ⟨?_, ?_, ?_⟩
  · simp [mintConcurrent, mintOnce, h2]
  · simp [mintConcurrent, mintOnce, h2, List.replicate_succ]
  · intro s hs
    cases hsf : s.inFlight with
    | none => rw [hsf] at hs; simp at hs
    | some p => simp [mintOnce, hsf]

/-- Witness for the single-flight theorem at three concurrent callers. -/
theorem single_flight_mint_witness :
    (mintConcurrent 3 ⟨none, 0, 0⟩).1.requests = 1 :=
  (single_flight_mint 3 (by decide)).1

/-- Claim C7: a cache entry written at time t for a token valid
expiresInSec seconds is returned for its scope exactly while
`now < t + expiresInSec * 1000 - skew * 1000` (the skew having been
folded into the stored `expireAt` at write time); on such a hit
`getAccessToken` returns the cached token with zero network requests, and
past that skew-adjusted expiry the cached token is never returned. -/
theorem cache_reuse_skew (t e now : Int) (tok scope : String) (mp : String × Nat)
    (hnow : t ≤ now) :
    (now < t + e * 1000 - TOKEN_SKEW_SEC * 1000 →
      tokenCacheRead (some (tokenCacheWrite t tok e scope)) scope now
        = some (tokenCacheWrite t tok e scope)
      ∧ getAccessTokenModel (some (tokenCacheWrite t tok e scope)) scope now mp = (tok, 0))
    ∧ ((tokenCacheRead (some (tokenCacheWrite t tok e scope)) scope now).isSome →
      now < t + e * 1000 - TOKEN_SKEW_SEC * 1000) := by
  constructor
  · intro hlt
    have hexp : now < (tokenCacheWrite t tok e scope).expireAt := by
      simp only [tokenCacheWrite, TOKEN_SKEW_SEC] at *
      rcases le_total ((e - 60) * 1000) 0 with h | h
      · rw [max_eq_left h]
        omega
      · rw [max_eq_right h]
        omega
    have hread : tokenCacheRead (some (tokenCacheWrite t tok e scope)) scope now
        = some (tokenCacheWrite t tok e scope) := by
      simp only [tokenCacheRead]
      rw [if_neg (not_or.mpr ⟨fun h => h rfl, not_le.mpr hexp⟩)]
    refine ⟨hread, ?_⟩
    simp only [getAccessTokenModel, hread]
    rfl
  · intro hsome
    simp only [tokenCacheRead] at hsome
    by_cases hc : (tokenCacheWrite t tok e scope).scope ≠ scope
      ∨ now ≥ (tokenCacheWrite t tok e scope).expireAt
    · rw [if_pos hc] at hsome
      simp at hsome
    · push_neg at hc
      have h2 := hc.2
      simp only [tokenCacheWrite, TOKEN_SKEW_SEC] at h2 ⊢
      rcases le_total ((e - 60) * 1000) 0 with h | h
      · rw [max_eq_left h] at h2
        omega
      · rw [max_eq_right h] at h2
        omega

/-- Witness for the cache-reuse theorem: a token minted at t = 0 for 3600
seconds is still served from the cache at now = 1000 ms. -/
theorem cache_reuse_skew_witness :
    tokenCacheRead (some (tokenCacheWrite 0 "x" 3600 "s")) "s" 1000
      = some (tokenCacheWrite 0 "x" 3600 "s") :=
  ((cache_reuse_skew 0 3600 1000 "x" "s" ("y", 5) (by decide)).1 (by decide)).1

/-- Claim C8: a drive-wide granted scope satisfies both the drive-wide
and the file-scoped desire; a file-scoped granted scope satisfies only
the file-scoped desire; an undefined or empty granted scope never
satisfies any desire. -/
theorem scope_satisfaction :
    isSatisfied (some DRIVE) DRIVE = true
    ∧ isSatisfied (some DRIVE) DRIVE_FILE = true
    ∧ isSatisfied (some DRIVE_FILE) DRIVE_FILE = true
    ∧ isSatisfied (some DRIVE_FILE) DRIVE = false
    ∧ (∀ desired : String, isSatisfied none desired = false)
    ∧ (∀ desired : String, isSatisfied (some "") desired = false) := by
  refine ⟨by decide, by decide, by decide, by decide, fun _ => rfl, fun d => ?_⟩
  simp [isSatisfied]

/-- Claim C9 (code bug): the logout handler does return 204 and clears
both cookies with Max-Age=0, and the refresh cookie is cleared on the
API-namespace path; but it clears the temporary cookie on "/api/",
although oauth-start sets that cookie on "/" (and oauth-callback clears
it on "/" to match), so the clear does not target the path where the
cookie was set. -/
theorem logout_clear_paths :
    logoutHandler.statusCode = 204
    ∧ logoutHandler.setCookies = [logoutClearRt, logoutClearHelper]
    ∧ logoutClearRt.name = "td2_rt" ∧ logoutClearRt.path = "/api/"
    ∧ logoutClearRt.maxAge = 0
    ∧ logoutClearHelper.name = "td2_oauth" ∧ logoutClearHelper.maxAge = 0
    ∧ logoutClearHelper.path = "/api/"
    ∧ (∀ payload : String, ∀ isHttps : Bool, (startTempCookie payload isHttps).path = "/")
    ∧ (∀ isHttps : Bool, (callbackClearOauthCookie isHttps).path = "/")
    ∧ logoutClearHelper.path ≠ (startTempCookie "" false).path := by
  exact ⟨rfl, rfl, rfl, rfl, rfl, rfl, rfl, rfl, fun _ _ => rfl, fun _ => rfl, by decide⟩

/-- Claim C1: after loading a file (tracked hash H0), if the remote
content changes to one with a different hash, a non-forced save attempt
runs the preflight, detects the mismatch, performs no upload and resolves
every waiter with false, leaving engine state and remote unchanged; the
"save anyway" action sets the one-shot force flag, and the save it
re-triggers then skips the preflight, uploads unconditionally (whatever
the preflight fetch would have returned) and updates the tracked hash to
the uploaded content's hash. -/
theorem conflict_detection (id text text2 html html2 : String) (metaName : Option String)
    (ws : List Nat) (w : Nat) (auto auto2 preflightOk2 uploadOk : Bool)
    (hneq : contentHash text2 ≠ contentHash text) :
    (loadFile id metaName text).forceNextSave = false
    ∧ hasFileConflicts (loadFile id metaName text) (some text2) = true
    ∧ (uploadHtmlMedia (loadFile id metaName text) text2 html true uploadOk).preflightRan = true
    ∧ runQueue ⟨loadFile id metaName text, text2, some ⟨html, auto⟩, ws⟩ [] true uploadOk
        = ⟨ws.map (fun r => (r, false)), [], ⟨loadFile id metaName text, text2, none, []⟩⟩
    ∧ (saveAnyway (loadFile id metaName text)).forceNextSave = true
    ∧ (uploadHtmlMedia (saveAnyway (loadFile id metaName text)) text2 html2 preflightOk2
        true).preflightRan = false
    ∧ runQueue ⟨saveAnyway (loadFile id metaName text), text2, some ⟨html2, auto2⟩, [w]⟩ []
        preflightOk2 true
        = ⟨[(w, true)], [html2],
            ⟨{ loadFile id metaName text with currentContentHash := some (contentHash html2) },
              html2, none, []⟩⟩ := by
  have hbne : (contentHash text2 != contentHash text) = true := bne_iff_ne.mpr hneq
  refine ⟨rfl, ?_, ?_, ?_, rfl, ?_, ?_⟩ <;>
    cases auto <;> cases auto2 <;>
      simp [runQueue, queueIterate, applyArrivals, uploadHtmlMedia, hasFileConflicts,
        loadFile, saveAnyway, hbne]

/-- Witness for the conflict-detection theorem at concrete contents "a"
(loaded) and "b" (externally changed): the preflight reports a
conflict. -/
theorem conflict_detection_witness :
    hasFileConflicts (loadFile "f" none "a") (some "b") = true :=
  (conflict_detection "f" "a" "b" "h" "k" none [7] 9 true true true true (by decide)).2.1

/-- Claim C2: five autosave requests arriving within the debounce window
of an in-flight save (i.e. before the queue drains) coalesce: the queue
performs exactly one further upload for them, carrying the fifth
request's payload, and all five waiters resolve with that single upload's
outcome. -/
theorem save_coalescing (id remote p0 h1 h2 h3 h4 h5 : String) (metaName : Option String)
    (w0 i1 i2 i3 i4 i5 : Nat) :
    runQueue ⟨loadFile id metaName remote, remote, some ⟨p0, true⟩, [w0]⟩
        [[(i1, ⟨h1, true⟩), (i2, ⟨h2, true⟩), (i3, ⟨h3, true⟩), (i4, ⟨h4, true⟩),
          (i5, ⟨h5, true⟩)]] true true
      = ⟨[(w0, true), (i1, true), (i2, true), (i3, true), (i4, true), (i5, true)],
          [p0, h5],
          ⟨{ loadFile id metaName remote with currentContentHash := some (contentHash h5) },
            h5, none, []⟩⟩ := by
  simp [runQueue, queueIterate, applyArrivals, uploadHtmlMedia, hasFileConflicts, loadFile]

/-- Claim C10: when the preflight's own network requests fail,
`hasFileConflicts` catches the error and returns false, so a save
proceeds to attempt the upload instead of aborting or resolving the
waiters with false on the preflight's account: the upload is attempted,
and the waiters resolve with the upload's own outcome. -/
theorem preflight_failure_nonblocking (id text text2 html : String) (metaName : Option String)
    (ws : List Nat) (auto uploadOk : Bool) :
    (∀ e : DriveEngine, hasFileConflicts e none = false)
    ∧ (uploadHtmlMedia (loadFile id metaName text) text2 html false uploadOk).didUpload = true
    ∧ (uploadHtmlMedia (loadFile id metaName text) text2 html false uploadOk).preflightRan = true
    ∧ (uploadHtmlMedia (loadFile id metaName text) text2 html false uploadOk).outcome
        = (if uploadOk then .ok true else .threw)
    ∧ (runQueue ⟨loadFile id metaName text, text2, some ⟨html, auto⟩, ws⟩ []
        false uploadOk).resolutions = ws.map (fun r => (r, uploadOk))
    ∧ (runQueue ⟨loadFile id metaName text, text2, some ⟨html, auto⟩, ws⟩ []
        false uploadOk).uploads = [html] := by
  refine ⟨?_, ?_, ?_, ?_, ?_, ?_⟩ <;>
    first
      | (intro e
         rcases e with ⟨fid, name, hash, force⟩
         cases fid <;> cases hash <;> rfl)
      | (cases auto <;> cases uploadOk <;>
          simp [runQueue, queueIterate, applyArrivals, uploadHtmlMedia, hasFileConflicts,
            loadFile])
